import Mathlib

/-!
Verification of the booking/availability, charge/balance and reporting
calculations of the hotel-management web application.

Dates: the application stores dates as ISO `YYYY-MM-DD` strings (normalized
by taking the part of the timestamp before the `T`) and compares them with
the ordinary string order, which on this fixed-width format coincides with
chronological order.  The embedding therefore represents a calendar date as
the natural number of days since 1970-01-01 (the ordinal the JavaScript
`Date.getTime` arithmetic is based on); string comparison in the source
corresponds exactly to numeric comparison on these ordinals.  For example
2024-01-10 is day 19732, 2024-01-11 is day 19733, 2024-01-12 is day 19734
and 2024-01-13 is day 19735.

Monetary quantities are JavaScript numbers on which the code performs only
addition, subtraction, multiplication and division; they are embedded as
rationals.
-/

/-! ## New-booking form (frontend/app/bookings/new/page.tsx) -/

/-- The state of the new-booking form that enters the charge computation:
the two date fields (`none` models an empty input), the nightly rate and
the advance payment. -/
structure BookingFormData where
  check_in_date : Option Int
  check_out_date : Option Int
  room_rate_per_night : ℚ
  advance_payment : ℚ

/-- Milliseconds per day, the divisor `1000 * 60 * 60 * 24` used by
`calculateTotalNights` in the source. -/
def msPerDay : Int := 1000 * 60 * 60 * 24

/-- JavaScript `Math.ceil` applied to the exact quotient of an integer by a
positive integer, as `Math.ceil(diffTime / (1000 * 60 * 60 * 24))` does in
`calculateTotalNights`. -/
def ceilDiv (a b : Int) : Int := -((-a) / b)

/-- `calculateTotalNights` from the new-booking page: when both date fields
are set, the difference of the two `Date.getTime` values (day ordinal times
`msPerDay`) is divided by `msPerDay` with `Math.ceil`, and clamped to `0`
when not positive; with an empty field the result is `0`. -/
def calculateTotalNights (fd : BookingFormData) : Int :=
  match fd.check_in_date, fd.check_out_date with
  | some checkIn, some checkOut =>
    let diffTime : Int := checkOut * msPerDay - checkIn * msPerDay
    let diffDays : Int := ceilDiv diffTime msPerDay
    if diffDays > 0 then diffDays else 0
  | _, _ => 0

/-- `calculateTotalAmount` from the new-booking page:
`calculateTotalNights() * formData.room_rate_per_night`. -/
def calculateTotalAmount (fd : BookingFormData) : ℚ :=
  (calculateTotalNights fd : ℚ) * fd.room_rate_per_night

/-- The balance-due figure displayed in the booking summary sidebar of the
new-booking page: `calculateTotalAmount() - formData.advance_payment`. -/
def newBookingBalanceDue (fd : BookingFormData) : ℚ :=
  calculateTotalAmount fd - fd.advance_payment

/-! ## Booking payment state (booking detail page and backend) -/

/-- The payment-relevant fields of a stored booking: the total amount, the
advance payment, and the list of payments collected so far. -/
structure PaymentState where
  total_amount : ℚ
  advance_payment : ℚ
  collected : List ℚ
deriving DecidableEq

/-- The balance still due on a booking:
`total_amount - advance_payment` minus every collected payment, as shown in
the payment summary of the booking detail page. -/
def balanceDue (s : PaymentState) : ℚ :=
  s.total_amount - s.advance_payment - s.collected.sum

/-- Modelled from the spec: the backend `collect-payment` endpoint (the
backend service is not included under src/, only its frontend callers are).
Per the spec, a collection request records the amount against the booking
and the balance is never allowed to go negative: collecting more than the
outstanding balance is rejected; the frontend additionally rejects a
non-positive amount before calling the endpoint. -/
def collectPayment (s : PaymentState) (amount : ℚ) : Except String PaymentState :=
  if amount ≤ 0 then
    Except.error "Please enter a valid amount"
  else if balanceDue s < amount then
    Except.error "Payment exceeds balance due"
  else
    Except.ok { s with collected := s.collected ++ [amount] }

/-! ## Availability calendar (getBookingForRoomAndDate) -/

/-- The fields of a fetched booking that the calendar grid consults. -/
structure CalendarBooking where
  room_id : Nat
  check_in_date : Nat
  check_out_date : Nat
deriving DecidableEq

/-- `getBookingForRoomAndDate` from the calendar page: the first booking in
the fetched list whose `room_id` matches and whose half-open stay interval
contains the cell date (`dateString >= checkIn && dateString < checkOut`
on normalized date strings). -/
def getBookingForRoomAndDate (bookings : List CalendarBooking) (roomId : Nat)
    (dateString : Nat) : Option CalendarBooking :=
  bookings.find? fun booking =>
    booking.room_id == roomId &&
      decide (booking.check_in_date ≤ dateString) &&
      decide (dateString < booking.check_out_date)

/-! ## Reports page aggregation (fetchReportData) -/

/-- The fields of a fetched booking record that the reports page reads. -/
structure ReportBooking where
  status : String
  check_in_date : Nat
  check_out_date : Nat
deriving DecidableEq

/-- The `/rooms/summary` response fields used by the reports page. -/
structure RoomsSummary where
  total_rooms : Nat
  active_rooms : Nat
  room_types : List (String × ℚ)
deriving DecidableEq

/-- The `/expenses/summary` response fields used by the reports page. -/
structure ExpensesSummary where
  total_amount : ℚ
  paid_amount : ℚ
  pending_amount : ℚ
  total_due : ℚ
  expense_by_category : List (String × ℚ)
deriving DecidableEq

/-- The `/bookings/revenue/summary` response fields used by the reports
page. -/
structure RevenueSummary where
  total_revenue : ℚ
  revenue_collected : ℚ
  revenue_pending : ℚ
deriving DecidableEq

/-- The `/event-bookings/summary` response fields used by the reports
page. -/
structure EventsSummary where
  total_revenue : ℚ
  total_collected : ℚ
  revenue_pending : ℚ
  total_expenses : ℚ
  total_paid : ℚ
  expenses_pending : ℚ
  total_profit : ℚ
  total_events : Nat
deriving DecidableEq

/-- The booking-type filter of the reports page. -/
inductive BookingTypeFilter where
  | both
  | hotel
  | events
deriving DecidableEq

/-- The `revenue` section of the `ReportData` interface. -/
structure RevenueReport where
  total : ℚ
  this_period : ℚ
  paid : ℚ
  pending : ℚ
  by_room_type : List (String × ℚ)
deriving DecidableEq

/-- The `occupancy` section of the `ReportData` interface. -/
structure OccupancyReport where
  rate : ℚ
  total_rooms : Nat
  occupied_rooms : Nat
  available_rooms : Int
deriving DecidableEq

/-- The `bookings` section of the `ReportData` interface. -/
structure BookingsReport where
  total : Nat
  confirmed : Nat
  checked_in : Nat
  checked_out : Nat
  cancelled : Nat
deriving DecidableEq

/-- The `expenses` section of the `ReportData` interface. -/
structure ExpensesReport where
  total : ℚ
  paid : ℚ
  pending : ℚ
  total_due : ℚ
  by_category : List (String × ℚ)
deriving DecidableEq

/-- The `events` section of the `ReportData` interface. -/
structure EventsReport where
  total : Nat
  revenue : ℚ
  collected : ℚ
  pending : ℚ
  vendor_cost : ℚ
  vendor_paid : ℚ
  vendor_pending : ℚ
  profit_margin : ℚ
deriving DecidableEq

/-- The `ReportData` record assembled by `fetchReportData`. -/
structure ReportData where
  revenue : RevenueReport
  occupancy : OccupancyReport
  bookings : BookingsReport
  expenses : ExpensesReport
  events : EventsReport
  profit : ℚ
deriving DecidableEq

/-- The already-fetched records, date window, booking-type filter and
current date that `fetchReportData` aggregates (`none` models a failed
fetch, for which the source substitutes `null` and then `|| 0`
defaults). -/
structure ReportInputs where
  roomsSummary : Option RoomsSummary
  bookings : List ReportBooking
  expensesSummary : Option ExpensesSummary
  revenueSummary : Option RevenueSummary
  eventsSummary : Option EventsSummary
  dateFrom : Nat
  dateTo : Nat
  today : Nat
  bookingType : BookingTypeFilter

/-- Hotel revenue as read by the reports page:
`revenueSummary?.total_revenue || 0`. -/
def hotelRevenueOf (inp : ReportInputs) : ℚ :=
  (inp.revenueSummary.map RevenueSummary.total_revenue).getD 0

/-- Expense-ledger total as read by the reports page:
`expensesSummary?.total_amount || 0`. -/
def expenseLedgerTotalOf (inp : ReportInputs) : ℚ :=
  (inp.expensesSummary.map ExpensesSummary.total_amount).getD 0

/-- Event revenue as read by the reports page:
`eventsSummary?.total_revenue || 0`. -/
def eventRevenueOf (inp : ReportInputs) : ℚ :=
  (inp.eventsSummary.map EventsSummary.total_revenue).getD 0

/-- Event vendor costs as read by the reports page:
`eventsSummary?.total_expenses || 0`. -/
def eventVendorCostOf (inp : ReportInputs) : ℚ :=
  (inp.eventsSummary.map EventsSummary.total_expenses).getD 0

/-- The current-occupancy test of the reports page: a fetched booking is
counted as occupying a room today when
`b.status === 'Checked In' && b.check_in_date <= today &&
b.check_out_date >= today` (dates normalized to their date part). -/
def countedOccupiedToday (b : ReportBooking) (today : Nat) : Bool :=
  b.status == "Checked In" &&
    decide (b.check_in_date ≤ today) &&
    decide (today ≤ b.check_out_date)

/-- `currentlyOccupied` of the reports page: the number of fetched bookings
that pass the current-occupancy test. -/
def currentlyOccupied (bookings : List ReportBooking) (today : Nat) : Nat :=
  (bookings.filter (fun b => countedOccupiedToday b today)).length

/-- The occupancy-rate expression of the reports page:
`activeRooms > 0 ? (currentlyOccupied / activeRooms) * 100 : 0`. -/
def reportsOccupancyRate (occupied active : Nat) : ℚ :=
  if 0 < active then ((occupied : ℚ) / (active : ℚ)) * 100 else 0

/-- The occupancy-rate expression of the dashboard (`loadDashboardStats`):
`roomSummary.active_rooms ? (occupiedRooms / roomSummary.active_rooms) * 100
: 0`, where `0` is falsy. -/
def dashboardOccupancyRate (occupied active : Nat) : ℚ :=
  if active = 0 then 0 else ((occupied : ℚ) / (active : ℚ)) * 100

/-- The occupied-room count of the dashboard: the number of fetched
bookings whose status is Checked In. -/
def dashboardOccupiedRooms (allBookings : List ReportBooking) : Nat :=
  (allBookings.filter (fun b => b.status == "Checked In")).length

/-- The pure aggregation core of `fetchReportData`: from the fetched
records, the date window, the booking-type filter and the current date it
assembles the `ReportData` record exactly as the source does. -/
def computeReportData (inp : ReportInputs) : ReportData :=
  let filteredBookings := inp.bookings.filter fun b =>
    decide (inp.dateFrom ≤ b.check_in_date) && decide (b.check_in_date ≤ inp.dateTo)
  let hotelRevenue := hotelRevenueOf inp
  let hotelPaid := (inp.revenueSummary.map RevenueSummary.revenue_collected).getD 0
  let hotelPending := (inp.revenueSummary.map RevenueSummary.revenue_pending).getD 0
  let eventRevenue := eventRevenueOf inp
  let eventCollected := (inp.eventsSummary.map EventsSummary.total_collected).getD 0
  let eventPending := (inp.eventsSummary.map EventsSummary.revenue_pending).getD 0
  let eventVendorCost := eventVendorCostOf inp
  let eventVendorPaid := (inp.eventsSummary.map EventsSummary.total_paid).getD 0
  let eventVendorPending := (inp.eventsSummary.map EventsSummary.expenses_pending).getD 0
  let eventProfitMargin := (inp.eventsSummary.map EventsSummary.total_profit).getD 0
  let eventCount := (inp.eventsSummary.map EventsSummary.total_events).getD 0
  let totals : ℚ × ℚ × ℚ × ℚ :=
    match inp.bookingType with
    | BookingTypeFilter.hotel =>
      (hotelRevenue, hotelPaid, hotelPending, expenseLedgerTotalOf inp)
    | BookingTypeFilter.events =>
      (eventRevenue, eventCollected, eventPending, eventVendorCost)
    | BookingTypeFilter.both =>
      (hotelRevenue + eventRevenue, hotelPaid + eventCollected,
        hotelPending + eventPending, expenseLedgerTotalOf inp + eventVendorCost)
  let totalRevenue := totals.1
  let paidRevenue := totals.2.1
  let pendingRevenue := totals.2.2.1
  let totalExpenses := totals.2.2.2
  let occupied := currentlyOccupied inp.bookings inp.today
  let totalRooms := (inp.roomsSummary.map RoomsSummary.total_rooms).getD 0
  let activeRooms := (inp.roomsSummary.map RoomsSummary.active_rooms).getD 0
  { revenue :=
      { total := totalRevenue
        this_period := totalRevenue
        paid := paidRevenue
        pending := pendingRevenue
        by_room_type := (inp.roomsSummary.map RoomsSummary.room_types).getD [] }
    occupancy :=
      { rate := reportsOccupancyRate occupied activeRooms
        total_rooms := totalRooms
        occupied_rooms := occupied
        available_rooms := (activeRooms : Int) - (occupied : Int) }
    bookings :=
      { total := filteredBookings.length
        confirmed := (filteredBookings.filter (fun b => b.status == "Confirmed")).length
        checked_in := (filteredBookings.filter (fun b => b.status == "Checked In")).length
        checked_out := (filteredBookings.filter (fun b => b.status == "Checked Out")).length
        cancelled := (filteredBookings.filter (fun b => b.status == "Cancelled")).length }
    expenses :=
      { total := totalExpenses
        paid := (inp.expensesSummary.map ExpensesSummary.paid_amount).getD 0
        pending := (inp.expensesSummary.map ExpensesSummary.pending_amount).getD 0
        total_due := (inp.expensesSummary.map ExpensesSummary.total_due).getD 0
        by_category := (inp.expensesSummary.map ExpensesSummary.expense_by_category).getD [] }
    events :=
      { total := eventCount
        revenue := eventRevenue
        collected := eventCollected
        pending := eventPending
        vendor_cost := eventVendorCost
        vendor_paid := eventVendorPaid
        vendor_pending := eventVendorPending
        profit_margin := eventProfitMargin }
    profit := totalRevenue - totalExpenses }

/-! ## Events page summary statistics -/

/-- The fields of a fetched event booking that the events-page statistics
read. -/
structure EventRecord where
  status : String
  total_customer_price : ℚ
  total_collected : ℚ
  customer_pending : ℚ
deriving DecidableEq

/-- The five summary statistics of the events page. -/
structure EventsPageStats where
  confirmed : Nat
  completed : Nat
  totalRevenue : ℚ
  totalCollected : ℚ
  totalPending : ℚ
deriving DecidableEq

/-- The `stats` memo of the events page: status counts by `filter` and
three running sums by `reduce` over the fetched event list. -/
def eventsPageStats (events : List EventRecord) : EventsPageStats :=
  { confirmed := (events.filter (fun e => e.status == "Confirmed")).length
    completed := (events.filter (fun e => e.status == "Completed")).length
    totalRevenue := events.foldl (fun sum e => sum + e.total_customer_price) 0
    totalCollected := events.foldl (fun sum e => sum + e.total_collected) 0
    totalPending := events.foldl (fun sum e => sum + e.customer_pending) 0 }

/-! ## Booking ledger availability check -/

/-- A stored reservation of the booking ledger, as far as the availability
check consults it. -/
structure LedgerBooking where
  id : Nat
  room_id : Nat
  check_in_date : Nat
  check_out_date : Nat
  status : String
deriving DecidableEq

/-- The half-open interval overlap test: `[a1, b1)` and `[a2, b2)` overlap
iff `a1 < b2` and `a2 < b1`. -/
def intervalsOverlap (a1 b1 a2 b2 : Nat) : Bool :=
  decide (a1 < b2) && decide (a2 < b1)

/-- Modelled from the spec: the availability check the backend runs before
creating or updating a booking (the backend service is not included under
src/, only its frontend callers are).  A proposed stay on a room conflicts
when some existing non-cancelled booking for the same room has an
overlapping half-open interval. -/
def hasConflict (existing : List LedgerBooking) (roomId ci co : Nat) : Bool :=
  existing.any fun b =>
    !(b.status == "Cancelled") && b.room_id == roomId &&
      intervalsOverlap b.check_in_date b.check_out_date ci co

/-- Modelled from the spec: the backend create-booking handler (not under
src/).  A proposed booking that conflicts with an existing non-cancelled
booking for the same room is rejected with a conflict error and nothing is
created; otherwise the booking is appended to the ledger. -/
def createBooking (existing : List LedgerBooking) (nb : LedgerBooking) :
    Except String (List LedgerBooking) :=
  if hasConflict existing nb.room_id nb.check_in_date nb.check_out_date then
    Except.error "Room is not available for the selected dates"
  else
    Except.ok (existing ++ [nb])

/-- Modelled from the spec: the backend update-booking handler (not under
src/; the edit page only PUTs the changed fields to it).  The proposed
room and dates are checked against every OTHER non-cancelled booking for
the room — the booking being edited is excluded from the conflict set —
and on conflict the update is rejected with a conflict error and the
ledger is left unchanged; otherwise the edited booking is replaced by its
new state. -/
def updateBooking (existing : List LedgerBooking) (bookingId : Nat)
    (nb : LedgerBooking) : Except String (List LedgerBooking) :=
  if hasConflict (existing.filter fun b => !(b.id == bookingId))
      nb.room_id nb.check_in_date nb.check_out_date then
    Except.error "Room is not available for the selected dates"
  else
    Except.ok (existing.map fun b => if b.id == bookingId then nb else b)

/-! ## Concrete records used to evaluate the definitions

Day ordinals: 19732 = 2024-01-10, 19733 = 2024-01-11, 19734 = 2024-01-12,
19735 = 2024-01-13. -/

/-- Booking A of the spec scenario: room 101, 2024-01-10 to 2024-01-12,
status Confirmed. -/
def bookingA : LedgerBooking :=
  { id := 1, room_id := 101, check_in_date := 19732, check_out_date := 19734,
    status := "Confirmed" }

/-- Booking B of the spec scenario: room 101, check-in 2024-01-11,
check-out 2024-01-13. -/
def bookingB : LedgerBooking :=
  { id := 2, room_id := 101, check_in_date := 19733, check_out_date := 19735,
    status := "Confirmed" }

/-- A fetched calendar booking on room 101 from 2024-01-10 to
2024-01-12. -/
def calBookingA : CalendarBooking :=
  { room_id := 101, check_in_date := 19732, check_out_date := 19734 }

/-- A Checked-In booking whose check-out date is 2024-01-12. -/
def reportBookingOutToday : ReportBooking :=
  { status := "Checked In", check_in_date := 19732, check_out_date := 19734 }

/-- The form state of the spec scenario: check-in 2024-01-10, check-out
2024-01-12, rate 2000, no advance. -/
def formA : BookingFormData :=
  { check_in_date := some 19732, check_out_date := some 19734,
    room_rate_per_night := 2000, advance_payment := 0 }

/-- A form state with the check-out date before the check-in date. -/
def formB : BookingFormData :=
  { check_in_date := some 19734, check_out_date := some 19732,
    room_rate_per_night := 2000, advance_payment := 0 }

/-- A booking with total 4000, advance 1000 and one collected payment of
500, so 2500 is still due. -/
def paymentA : PaymentState :=
  { total_amount := 4000, advance_payment := 1000, collected := [500] }

/-- `paymentA` after a further collection of 2000. -/
def paymentCollected : PaymentState :=
  { total_amount := 4000, advance_payment := 1000, collected := [500, 2000] }

/-- A Confirmed event with revenue 1000, of which 400 is collected. -/
def eventRec1 : EventRecord :=
  { status := "Confirmed", total_customer_price := 1000,
    total_collected := 400, customer_pending := 600 }

/-- A Completed event with revenue 2000, fully collected. -/
def eventRec2 : EventRecord :=
  { status := "Completed", total_customer_price := 2000,
    total_collected := 2000, customer_pending := 0 }

/-! ## Helper lemmas -/

/-- Ceiling division is exact on a multiple of a positive divisor. -/
theorem ceilDiv_mul_cancel (d m : Int) (hm : 0 < m) : ceilDiv (d * m) m = d := by
  unfold ceilDiv
  rw [Int.neg_mul_eq_neg_mul, Int.mul_ediv_cancel _ (by omega : m ≠ 0)]
  omega

/-- A left fold that keeps adding `f` of each element is the initial value
plus the sum of the mapped list. -/
theorem foldl_add_eq (f : EventRecord → ℚ) (l : List EventRecord) (init : ℚ) :
    l.foldl (fun s e => s + f e) init = init + (l.map f).sum := by
  induction l generalizing init with
  | nil => simp
  | cons x xs ih => simp [List.foldl_cons, ih]; ring

/-! ## C1: overlap conflicts are rejected -/

/-- C1: a proposed booking whose half-open stay interval overlaps the
interval of an existing non-cancelled booking for the same room is
rejected with a conflict error and nothing is written, both when creating
a new booking and when updating a booking other than the one it overlaps
(the booking being edited is itself excluded from the conflict set). -/
theorem booking_overlap_rejected (existing : List LedgerBooking)
    (nb b : LedgerBooking) (bid : Nat)
    (hmem : b ∈ existing) (hstat : b.status ≠ "Cancelled")
    (hroom : b.room_id = nb.room_id)
    (h1 : b.check_in_date < nb.check_out_date)
    (h2 : nb.check_in_date < b.check_out_date) :
    (createBooking existing nb =
        Except.error "Room is not available for the selected dates" ∧
      ∀ l, createBooking existing nb ≠ Except.ok l) ∧
    (b.id ≠ bid →
      updateBooking existing bid nb =
          Except.error "Room is not available for the selected dates" ∧
        ∀ l, updateBooking existing bid nb ≠ Except.ok l) := by
  have hpred : (!(b.status == "Cancelled") && b.room_id == nb.room_id &&
      intervalsOverlap b.check_in_date b.check_out_date
        nb.check_in_date nb.check_out_date) = true := by
    simp [intervalsOverlap, hroom, hstat, h1, h2]
  constructor
  · have hc : hasConflict existing nb.room_id nb.check_in_date nb.check_out_date = true :=
      List.any_eq_true.mpr ⟨b, hmem, hpred⟩
    exact ⟨by simp [createBooking, hc], fun l => by simp [createBooking, hc]⟩
  · intro hid
    have hmem₂ : b ∈ existing.filter fun x => !(x.id == bid) := by
      apply List.mem_filter.mpr
      refine ⟨hmem, ?_⟩
      simp [hid]
    have hc : hasConflict (existing.filter fun x => !(x.id == bid))
        nb.room_id nb.check_in_date nb.check_out_date = true :=
      List.any_eq_true.mpr ⟨b, hmem₂, hpred⟩
    exact ⟨by simp [updateBooking, hc], fun l => by simp [updateBooking, hc]⟩

/-- C1 witness: with booking A (id 1, room 101, 2024-01-10 to 2024-01-12,
Confirmed) on the ledger, creating booking B (room 101, 2024-01-11 to
2024-01-13) is rejected as a conflict, and so is updating a different
booking (id 2) to the dates of booking B. -/
theorem booking_overlap_rejected_witness :
    bookingA ∈ [bookingA] ∧ bookingA.status ≠ "Cancelled" ∧
      bookingA.room_id = bookingB.room_id ∧
      bookingA.check_in_date < bookingB.check_out_date ∧
      bookingB.check_in_date < bookingA.check_out_date ∧
      bookingA.id ≠ 2 ∧
      createBooking [bookingA] bookingB =
        Except.error "Room is not available for the selected dates" ∧
      updateBooking [bookingA] 2 bookingB =
        Except.error "Room is not available for the selected dates" := by
  have h := booking_overlap_rejected [bookingA] bookingB bookingA 2
    (List.mem_singleton.mpr rfl) (by decide) (by decide) (by decide) (by decide)
  exact ⟨List.mem_singleton.mpr rfl, by decide, by decide, by decide, by decide,
    by decide, h.1.1, (h.2 (by decide)).1⟩

/-! ## C2: calendar cell assignment -/

/-- C2: the calendar cell for room `r` and date `d` is assigned a booking
exactly when the fetched list contains a booking for room `r` whose
half-open interval from the check-in date up to but not including the
check-out date contains `d`, and any assigned booking is such a list
entry. -/
theorem calendar_cell_assignment (bookings : List CalendarBooking) (r d : Nat) :
    ((getBookingForRoomAndDate bookings r d).isSome ↔
      ∃ b ∈ bookings, b.room_id = r ∧ b.check_in_date ≤ d ∧ d < b.check_out_date) ∧
    ∀ b, getBookingForRoomAndDate bookings r d = some b →
      b ∈ bookings ∧ b.room_id = r ∧ b.check_in_date ≤ d ∧ d < b.check_out_date := by
  constructor
  · rw [getBookingForRoomAndDate, List.find?_isSome]
    simp [and_assoc]
  · intro b hb
    have hmem := List.mem_of_find?_eq_some hb
    have hpred := List.find?_some hb
    simp at hpred
    exact ⟨hmem, hpred.1.1, hpred.1.2, hpred.2⟩

/-- C2 witness: the 2024-01-11 cell of room 101 is assigned the booking
that runs from 2024-01-10 to 2024-01-12, while the 2024-01-12 cell is
not. -/
theorem calendar_cell_assignment_witness :
    (getBookingForRoomAndDate [calBookingA] 101 19733).isSome ∧
      ¬ (getBookingForRoomAndDate [calBookingA] 101 19734).isSome := by
  constructor
  · exact (calendar_cell_assignment [calBookingA] 101 19733).1.mpr
      ⟨calBookingA, List.mem_singleton.mpr rfl, rfl, by decide, by decide⟩
  · intro hsome
    obtain ⟨b, hb, -, -, hlt⟩ := (calendar_cell_assignment [calBookingA] 101 19734).1.mp hsome
    rw [List.mem_singleton.mp hb] at hlt
    exact absurd hlt (by decide)

/-! ## C3: current occupancy on the reports page -/

/-- C3 counterexample: a Checked-In booking whose check-out date equals
the current date (2024-01-12) IS counted as occupied by the reports page,
contradicting the half-open rule the claim states. -/
theorem occupancy_today_checkout_counted :
    reportBookingOutToday.status = "Checked In" ∧
      reportBookingOutToday.check_out_date = 19734 ∧
      currentlyOccupied [reportBookingOutToday] 19734 = 1 := by
  refine ⟨rfl, rfl, ?_⟩
  decide

/-- C3 (amended): in the current-occupancy computation of the reports
page, a booking is counted as occupying a room today exactly when its
status is Checked In and the current date lies in the CLOSED interval from
the check-in date to the check-out date; in particular a Checked-In booking
whose check-out date equals the current date is counted. -/
theorem occupancy_today_closed_interval (b : ReportBooking) (today : Nat) :
    countedOccupiedToday b today = true ↔
      (b.status = "Checked In" ∧ b.check_in_date ≤ today ∧ today ≤ b.check_out_date) := by
  simp [countedOccupiedToday, and_assoc]

/-! ## C4: nights and total amount on the new-booking form -/

/-- C4: when the check-in date is strictly before the check-out date, the
computed number of nights is the whole-day difference and the computed
total is nights times the nightly rate. -/
theorem total_nights_and_amount (fd : BookingFormData) (ci co : Int)
    (hci : fd.check_in_date = some ci) (hco : fd.check_out_date = some co)
    (h : ci < co) :
    calculateTotalNights fd = co - ci ∧
      calculateTotalAmount fd = ((co - ci : Int) : ℚ) * fd.room_rate_per_night := by
  have hceil : ceilDiv (co * msPerDay - ci * msPerDay) msPerDay = co - ci := by
    have key : co * msPerDay - ci * msPerDay = (co - ci) * msPerDay := by ring
    rw [key]
    exact ceilDiv_mul_cancel _ _ (by norm_num [msPerDay])
  have hn : calculateTotalNights fd = co - ci := by
    simp only [calculateTotalNights, hci, hco]
    rw [hceil, if_pos (by omega)]
  refine ⟨hn, ?_⟩
  rw [calculateTotalAmount, hn]

/-- C4 witness: check-in 2024-01-10 and check-out 2024-01-12 at rate 2000
give 2 nights and a total of 4000. -/
theorem total_nights_and_amount_witness :
    formA.check_in_date = some 19732 ∧ formA.check_out_date = some 19734 ∧
      (19732 : Int) < 19734 ∧
      calculateTotalNights formA = 2 ∧ calculateTotalAmount formA = 4000 := by
  obtain ⟨hn, ha⟩ := total_nights_and_amount formA 19732 19734 rfl rfl (by decide)
  refine ⟨rfl, rfl, by decide, ?_, ?_⟩
  · rw [hn]; norm_num
  · rw [ha]
    norm_num [formA]

/-! ## C5: occupancy-rate guard against division by zero -/

/-- C5: both on the reports page and on the dashboard, the occupancy rate
is 0 when there are no active rooms and is occupied over active times 100
otherwise; the reports page embeds its expression through
`reportsOccupancyRate` inside `computeReportData`. -/
theorem occupancy_rate_zero_guard (occupied active : Nat) :
    reportsOccupancyRate occupied active = dashboardOccupancyRate occupied active ∧
      (active = 0 → reportsOccupancyRate occupied active = 0 ∧
        dashboardOccupancyRate occupied active = 0) ∧
      (active ≠ 0 → reportsOccupancyRate occupied active = (occupied : ℚ) / (active : ℚ) * 100 ∧
        dashboardOccupancyRate occupied active = (occupied : ℚ) / (active : ℚ) * 100) := by
  unfold reportsOccupancyRate dashboardOccupancyRate
  rcases Nat.eq_zero_or_pos active with hz | hp
  · subst hz
    simp
  · have hne : active ≠ 0 := Nat.pos_iff_ne_zero.mp hp
    simp [hp, hne]

/-- C5 witness: with 3 occupied and 0 active rooms both rates are 0; with
1 occupied of 4 active rooms both rates are 25. -/
theorem occupancy_rate_zero_guard_witness :
    reportsOccupancyRate 3 0 = 0 ∧ dashboardOccupancyRate 3 0 = 0 ∧
      reportsOccupancyRate 1 4 = 25 ∧ dashboardOccupancyRate 1 4 = 25 := by
  obtain ⟨-, hz, -⟩ := occupancy_rate_zero_guard 3 0
  obtain ⟨-, -, hp⟩ := occupancy_rate_zero_guard 1 4
  obtain ⟨h1, h2⟩ := hz rfl
  obtain ⟨h3, h4⟩ := hp (by decide)
  refine ⟨h1, h2, ?_, ?_⟩
  · rw [h3]; norm_num
  · rw [h4]; norm_num

/-! ## C6: profit under the booking-type filter -/

/-- C6: the profit of the report equals total revenue minus total
expenses, where under the hotel filter revenue is hotel revenue and
expenses are the expense-ledger total, under the events filter revenue is
event revenue and expenses are event vendor costs, and under the combined
filter revenue is hotel plus event revenue and expenses are the
expense-ledger total plus event vendor costs. -/
theorem report_profit_by_filter (inp : ReportInputs) :
    (computeReportData { inp with bookingType := BookingTypeFilter.hotel }).profit =
      hotelRevenueOf inp - expenseLedgerTotalOf inp ∧
    (computeReportData { inp with bookingType := BookingTypeFilter.events }).profit =
      eventRevenueOf inp - eventVendorCostOf inp ∧
    (computeReportData { inp with bookingType := BookingTypeFilter.both }).profit =
      (hotelRevenueOf inp + eventRevenueOf inp) -
        (expenseLedgerTotalOf inp + eventVendorCostOf inp) :=
  ⟨rfl, rfl, rfl⟩

/-! ## C8: the report aggregation is a pure function -/

/-- C8: for fixed fetched records, date window, filter and current date,
evaluating the report aggregation twice yields identical totals in every
field: the aggregation is a deterministic pure function of its inputs. -/
theorem report_computation_deterministic (inp : ReportInputs) :
    computeReportData inp = computeReportData inp := rfl

/-! ## C9: nights are never negative -/

/-- C9: the computed number of nights is always non-negative; it is 0
whenever the check-out date is at most the check-in date or either date
field is empty, in which case the total amount is 0; and the total amount
is non-negative for any non-negative rate. -/
theorem total_nights_nonneg (fd : BookingFormData) :
    0 ≤ calculateTotalNights fd ∧
      (∀ ci co : Int, fd.check_in_date = some ci → fd.check_out_date = some co →
        co ≤ ci → calculateTotalNights fd = 0 ∧ calculateTotalAmount fd = 0) ∧
      ((fd.check_in_date = none ∨ fd.check_out_date = none) →
        calculateTotalNights fd = 0 ∧ calculateTotalAmount fd = 0) ∧
      (0 ≤ fd.room_rate_per_night → 0 ≤ calculateTotalAmount fd) := by
  obtain ⟨ci?, co?, rate, adv⟩ := fd
  have hnn : 0 ≤ calculateTotalNights ⟨ci?, co?, rate, adv⟩ := by
    cases ci? with
    | none => simp [calculateTotalNights]
    | some ci =>
      cases co? with
      | none => simp [calculateTotalNights]
      | some co =>
        simp only [calculateTotalNights]
        split <;> omega
  refine ⟨hnn, ?_, ?_, ?_⟩
  · intro ci co hci hco hle
    cases hci
    cases hco
    have hceil : ceilDiv (co * msPerDay - ci * msPerDay) msPerDay = co - ci := by
      have key : co * msPerDay - ci * msPerDay = (co - ci) * msPerDay := by ring
      rw [key]
      exact ceilDiv_mul_cancel _ _ (by norm_num [msPerDay])
    have hz : calculateTotalNights ⟨some ci, some co, rate, adv⟩ = 0 := by
      simp only [calculateTotalNights]
      rw [hceil, if_neg (by omega)]
    exact ⟨hz, by rw [calculateTotalAmount, hz]; norm_num⟩
  · intro hnone
    have hz : calculateTotalNights ⟨ci?, co?, rate, adv⟩ = 0 := by
      rcases hnone with hci | hco
      · cases hci
        simp [calculateTotalNights]
      · cases hco
        cases ci? <;> simp [calculateTotalNights]
    exact ⟨hz, by rw [calculateTotalAmount, hz]; norm_num⟩
  · intro hrate
    exact mul_nonneg (by exact_mod_cast hnn) hrate

/-- C9 witness: with the check-out date two days before the check-in date
the form computes 0 nights and a total of 0, and the nights count is
non-negative. -/
theorem total_nights_nonneg_witness :
    (0 : Int) ≤ calculateTotalNights formB ∧ calculateTotalNights formB = 0 ∧
      calculateTotalAmount formB = 0 := by
  obtain ⟨h1, h2, -, -⟩ := total_nights_nonneg formB
  obtain ⟨hz, ha⟩ := h2 19734 19732 rfl rfl (by decide)
  exact ⟨h1, hz, ha⟩

/-! ## C10: events-page statistics ignore order -/

/-- C10: the five events-page summary statistics are invariant under any
permutation of the fetched event list. -/
theorem events_stats_perm_invariant (l l' : List EventRecord) (h : l.Perm l') :
    eventsPageStats l = eventsPageStats l' := by
  unfold eventsPageStats
  have hconf := (h.filter (fun e => e.status == "Confirmed")).length_eq
  have hcomp := (h.filter (fun e => e.status == "Completed")).length_eq
  have h1 := (h.map (fun e => e.total_customer_price)).sum_eq
  have h2 := (h.map (fun e => e.total_collected)).sum_eq
  have h3 := (h.map (fun e => e.customer_pending)).sum_eq
  rw [foldl_add_eq (fun e => e.total_customer_price),
    foldl_add_eq (fun e => e.total_collected),
    foldl_add_eq (fun e => e.customer_pending),
    foldl_add_eq (fun e => e.total_customer_price) l',
    foldl_add_eq (fun e => e.total_collected) l',
    foldl_add_eq (fun e => e.customer_pending) l']
  simp [hconf, hcomp, h1, h2, h3]

/-- C10 witness: swapping the two events of a concrete list leaves all
five statistics unchanged. -/
theorem events_stats_perm_invariant_witness :
    ([eventRec1, eventRec2].Perm [eventRec2, eventRec1]) ∧
      eventsPageStats [eventRec1, eventRec2] = eventsPageStats [eventRec2, eventRec1] := by
  have hperm : ([eventRec1, eventRec2] : List EventRecord).Perm [eventRec2, eventRec1] :=
    List.Perm.swap eventRec2 eventRec1 []
  exact ⟨hperm, events_stats_perm_invariant _ _ hperm⟩

/-! ## C7: balance-due accounting -/

/-- C7: the balance due equals the total amount minus the advance payment
minus the sum of collected payments; starting from a non-negative balance,
a successful collection reduces the balance by exactly the collected
amount and keeps it non-negative, collecting more than the outstanding
balance is rejected, and on the new-booking form the displayed balance due
equals the computed total amount minus the entered advance payment. -/
theorem balance_due_accounting (s : PaymentState) (a : ℚ) (h0 : 0 ≤ balanceDue s) :
    balanceDue s = s.total_amount - s.advance_payment - s.collected.sum ∧
      (∀ s₂, collectPayment s a = Except.ok s₂ →
        balanceDue s₂ = balanceDue s - a ∧ 0 ≤ balanceDue s₂) ∧
      (balanceDue s < a → collectPayment s a = Except.error "Payment exceeds balance due") ∧
      (∀ fd : BookingFormData,
        newBookingBalanceDue fd = calculateTotalAmount fd - fd.advance_payment) := by
  refine ⟨rfl, ?_, ?_, fun fd => rfl⟩
  · intro s₂ hok
    unfold collectPayment at hok
    by_cases ha : a ≤ 0
    · rw [if_pos ha] at hok
      exact absurd hok (by simp)
    · rw [if_neg ha] at hok
      by_cases hb : balanceDue s < a
      · rw [if_pos hb] at hok
        exact absurd hok (by simp)
      · rw [if_neg hb] at hok
        have hs₂ : s₂ = { s with collected := s.collected ++ [a] } := by
          cases hok
          rfl
        subst hs₂
        constructor
        · simp [balanceDue, List.sum_append]
          ring
        · have hba : a ≤ balanceDue s := le_of_not_lt hb
          have : balanceDue { s with collected := s.collected ++ [a] } = balanceDue s - a := by
            simp [balanceDue, List.sum_append]
            ring
          rw [this]
          linarith
  · intro hb
    have ha : ¬ a ≤ 0 := by linarith
    unfold collectPayment
    rw [if_neg ha, if_pos hb]

/-- C7 witness: a booking with total 4000, advance 1000 and a collected
payment of 500 has 2500 due; collecting 2000 more leaves 500 due, which is
non-negative, and attempting to collect 3000 is rejected. -/
theorem balance_due_accounting_witness :
    (0 : ℚ) ≤ balanceDue paymentA ∧
      collectPayment paymentA 2000 = Except.ok paymentCollected ∧
      balanceDue paymentCollected = 500 ∧ 0 ≤ balanceDue paymentCollected ∧
      collectPayment paymentA 3000 = Except.error "Payment exceeds balance due" := by
  have h0 : (0 : ℚ) ≤ balanceDue paymentA := by
    norm_num [balanceDue, paymentA]
  have hcoll : collectPayment paymentA 2000 = Except.ok paymentCollected := by
    unfold collectPayment
    rw [if_neg (by norm_num), if_neg (by norm_num [balanceDue, paymentA])]
    rfl
  obtain ⟨-, hok, -, -⟩ := balance_due_accounting paymentA 2000 h0
  obtain ⟨hbal, hnn⟩ := hok paymentCollected hcoll
  obtain ⟨-, -, herr, -⟩ := balance_due_accounting paymentA 3000 h0
  refine ⟨h0, hcoll, ?_, hnn, herr (by norm_num [balanceDue, paymentA])⟩
  rw [hbal]
  norm_num [balanceDue, paymentA]
